import Mathlib

/-!
Shallow embedding of `spikecomparison/groundtruthstudy.py` (class
`GroundTruthStudy`): the study state manager and result-aggregation
pipeline of the spikecomparison benchmarking harness.

Modelling conventions:
* the study folder on disk is a `StudyFolder` record; the helper functions
  from `studytools` (not included in the repository snapshot under `src/`)
  are modelled from the spec as pure reads of that record;
* a "sorting" (labeled-event sequence) is represented by its list of unit
  ids, which is the only part of it this module inspects;
* the external comparison object returned by
  `compare_sorter_to_ground_truth` is opaque data (`Comparison`) holding
  exactly the fields the aggregation methods read; threshold arguments are
  forwarded to the external scorer and therefore do not appear in the model;
* Python exceptions become an explicit `StudyError` sum, distinguishing the
  usage error raised by `_check_rec_name`, the `ValueError` of
  `list.index`, failed `assert`, `KeyError` and file-system errors;
* the tab-separated readers/writers are serialization primitives per the
  spec, modelled as the identity on rows.
-/

/-- Python exception taxonomy used by `GroundTruthStudy`. -/
inductive StudyError where
  | usageError (msg : String)
  | lookupError (msg : String)
  | assertionError (msg : String)
  | keyError (msg : String)
  | valueError (msg : String)
  | ioError (msg : String)
deriving Repr, DecidableEq

/-- Opaque result of the external `compare_sorter_to_ground_truth` scorer:
the fields the aggregation methods read.  `perfRows` is the by-unit
performance frame (one opaque score payload per ground-truth unit id). -/
structure Comparison where
  perfRows : List (Nat × Int)
  countWellDetected : Nat
  countRedundant : Nat
  countOvermerged : Nat
  countFalsePositive : Nat
  countBad : Nat
deriving Repr, DecidableEq

/-- The `count_units` aggregated table: a column list plus one row per key,
cells aligned with the columns (`none` = not yet filled by the loop). -/
structure CountUnitsTable where
  columns : List String
  rows : List ((String × String) × List (Option Nat))
deriving Repr, DecidableEq

/-- The `run_times` aggregated table: one row per (rec, sorter) pair. -/
def RunTimesTable : Type := List ((String × String) × Nat)
deriving instance Repr, DecidableEq for RunTimesTable

/-- The `perf_by_units` aggregated table: rows keyed
(rec_name, sorter_name, gt_unit_id). -/
def PerfTable : Type := List ((String × String × Nat) × Int)
deriving instance Repr, DecidableEq for PerfTable

/-- The three dataframes produced by `aggregate_dataframes`. -/
structure Dataframes where
  run_times : RunTimesTable
  perf_by_units : PerfTable
  count_units : CountUnitsTable
deriving Repr, DecidableEq

/-- The persistent study folder.  `recNames` are the ground-truth cases,
`computedPairs` the (rec_name, sorter_name) outputs present on disk (in
discovery order), `runTimes` the per-pair run-time records, `gtUnits` the
unit ids of each ground-truth sorting, `sortUnits` the unit ids of each
computed output, `metricsFiles` the files under `metrics/`, and `tables`
the exported tables area. -/
structure StudyFolder where
  recNames : List String
  computedPairs : List (String × String)
  runTimes : List ((String × String) × Nat)
  gtUnits : List (String × List Nat)
  sortUnits : List ((String × String) × List Nat)
  metricsFiles : List (String × List (Nat × Int))
  tables : Option Dataframes
deriving Repr, DecidableEq

/-- In-memory `GroundTruthStudy` object state. -/
structure Study where
  folder : StudyFolder
  is_scanned : Bool
  rec_names : List String
  computed_names : List (String × String)
  sorter_names : List String
  comparisons : Option (List ((String × String) × Comparison))
  exhaustive_gt : Option Bool
deriving Repr, DecidableEq

/-- Modelled from the spec: `studytools.get_rec_names` lists the known
case names found under the ground-truth area of the folder. -/
def get_rec_names (f : StudyFolder) : List String := f.recNames

/-- Modelled from the spec: `studytools.iter_computed_names` enumerates the
(rec_name, sorter_name) pairs that have output on disk. -/
def iter_computed_names (f : StudyFolder) : List (String × String) :=
  f.computedPairs

/-- Modelled from the spec: `studytools.iter_computed_sorting` yields
(rec_name, sorter_name, sorting) for every computed pair on disk; the
sorting is represented by its unit ids. -/
def iter_computed_sorting (f : StudyFolder) : List (String × String × List Nat) :=
  f.computedPairs.map (fun p => (p.1, p.2, ((f.sortUnits.lookup p).getD [])))

/-- Behaviour of `np.unique` on a list of names: sorted, de-duplicated values. -/
def npUnique (l : List String) : List String :=
  (l.mergeSort (fun a b => a ≤ b)).dedup

/-- Method `GroundTruthStudy.scan_folder`. -/
def scan_folder (s : Study) : Study :=
  { s with
    rec_names := get_rec_names s.folder
    computed_names := iter_computed_names s.folder
    sorter_names := npUnique ((iter_computed_names s.folder).map (fun e => e.2))
    is_scanned := true }

/-- Method `GroundTruthStudy._check_rec_name`: resolves an optional recording
name.  Threads the study because the method may trigger `scan_folder`. -/
def _check_rec_name (s : Study) (rec_name : Option String) :
    Except StudyError (Study × String) :=
  let s := if s.is_scanned then s else scan_folder s
  if s.rec_names.length > 1 ∧ rec_name = none then
    .error (.usageError "Pass rec_name parameter to select which recording to use.")
  else if s.rec_names.length = 1 then
    .ok (s, s.rec_names.headD "")
  else
    match rec_name with
    | some n =>
      if n ∈ s.rec_names then .ok (s, n)
      else .error (.lookupError "rec_name is not in list")
    | none => .error (.lookupError "rec_name is not in list")

/-- Method `GroundTruthStudy.get_ground_truth`: loads the ground-truth sorting of
the resolved case (missing archive file is an I/O error). -/
def get_ground_truth (s : Study) (rec_name : Option String) :
    Except StudyError (Study × List Nat) :=
  match _check_rec_name s rec_name with
  | .error e => .error e
  | .ok (s, rn) =>
    match s.folder.gtUnits.lookup rn with
    | some u => .ok (s, u)
    | none => .error (.ioError ("missing ground truth " ++ rn))

/-- Modelled from the spec: `studytools.get_one_recording` reconstructs the
recording of a case from its folder; only its presence matters here. -/
def get_one_recording (f : StudyFolder) (rec : String) : Option Unit :=
  if rec ∈ f.recNames then some () else none

/-- Method `GroundTruthStudy.get_recording`. -/
def get_recording (s : Study) (rec_name : Option String) :
    Except StudyError (Study × Unit) :=
  match _check_rec_name s rec_name with
  | .error e => .error e
  | .ok (s, rn) =>
    match get_one_recording s.folder rn with
    | some r => .ok (s, r)
    | none => .error (.ioError ("missing recording " ++ rn))

/-- Cartesian product of known cases and requested engine names, in the
dispatch order (all engines of the first case, then the next case). -/
def crossPairs (recs : List String) (sorters : List String) :
    List (String × String) :=
  recs.foldr (fun r acc => sorters.map (fun so => (r, so)) ++ acc) []

/-- Replace the value under a key in an association list, appending the
entry when the key is absent. -/
def setAssoc {α β : Type} [DecidableEq α] (l : List (α × β)) (k : α) (v : β) :
    List (α × β) :=
  if (l.lookup k).isSome then l.map (fun e => if e.1 = k then (k, v) else e)
  else l ++ [(k, v)]

/-- Run one engine against one case: deposit the output and the wall-clock
run-time record for that pair, making the pair discoverable.  The engine
itself is an external parameter (`eu` = produced unit ids, `et` =
duration). -/
def runOnePair (eu : String × String → List Nat) (et : String × String → Nat)
    (f : StudyFolder) (p : String × String) : StudyFolder :=
  { f with
    computedPairs :=
      if p ∈ f.computedPairs then f.computedPairs else f.computedPairs ++ [p]
    sortUnits := setAssoc f.sortUnits p (eu p)
    runTimes := setAssoc f.runTimes p (et p) }

/-- Modelled from the spec: `studytools.run_study_sorters` iterates the
cross product of known cases and requested engines; with mode "keep" a
pair whose output already exists is skipped, otherwise the pair is (re)run
and its output and run-time record replaced. -/
def run_study_sorters (eu : String × String → List Nat)
    (et : String × String → Nat) (f : StudyFolder)
    (sorter_list : List String) (mode : String) : StudyFolder :=
  (crossPairs (get_rec_names f) sorter_list).foldl
    (fun acc p =>
      if mode = "keep" ∧ p ∈ acc.computedPairs then acc
      else runOnePair eu et acc p)
    f

/-- Method `GroundTruthStudy.run_sorters`.  The Python method accepts a `mode`
argument (default "keep") but does not forward it to
`run_study_sorters`, which therefore always runs with its own default
mode "keep". -/
def run_sorters (eu : String × String → List Nat)
    (et : String × String → Nat) (s : Study)
    (sorter_list : List String) (mode : String) : Study :=
  { s with folder := run_study_sorters eu et s.folder sorter_list "keep" }

/-- Loop body of `run_comparisons`: scores every discovered pair against
its ground truth, accumulating into `self.comparisons`, and records the
batch exhaustiveness flag after the loop.  `cmp` is the external
`compare_sorter_to_ground_truth` (gt units, sorting units, exhaustive_gt). -/
def compLoop (cmp : List Nat → List Nat → Bool → Comparison) (exh : Bool) :
    List (String × String × List Nat) → Study → Except StudyError Study
  | [], s => .ok { s with exhaustive_gt := some exh }
  | t :: rest, s =>
    match get_ground_truth s (some t.1) with
    | .error e => .error e
    | .ok (s, gtU) =>
      compLoop cmp exh rest
        { s with
          comparisons :=
            some ((s.comparisons.getD []) ++ [((t.1, t.2.1), cmp gtU t.2.2 exh)]) }

/-- Method `GroundTruthStudy.run_comparisons`: resets `self.comparisons` to an
empty map, then scores every currently discovered pair. -/
def run_comparisons (cmp : List Nat → List Nat → Bool → Comparison)
    (s : Study) (exh : Bool) : Except StudyError Study :=
  compLoop cmp exh (iter_computed_sorting s.folder)
    { s with comparisons := some [] }

/-- Modelled from the spec: `studytools.collect_run_times` reads the
per-pair wall-clock records from the folder into the run-times table. -/
def collect_run_times (f : StudyFolder) : RunTimesTable := f.runTimes

/-- Method `GroundTruthStudy.aggregate_run_times`: delegates to
`collect_run_times` with no precondition check. -/
def aggregate_run_times (s : Study) : RunTimesTable :=
  collect_run_times s.folder

/-- Per-pair block of `aggregate_performance_by_units`: the by-unit
performance frame of one comparison, re-keyed by
(rec_name, sorter_name, gt_unit_id); a pair missing from the comparison
map raises `KeyError`. -/
def perfFrames (m : List ((String × String) × Comparison)) :
    List (String × String × List Nat) → Except StudyError (List PerfTable)
  | [] => .ok []
  | t :: rest =>
    match m.lookup (t.1, t.2.1) with
    | none => .error (.keyError (t.1 ++ "/" ++ t.2.1))
    | some comp =>
      match perfFrames m rest with
      | .error e => .error e
      | .ok fs =>
        .ok ((comp.perfRows.map (fun r => ((t.1, t.2.1, r.1), r.2))) :: fs)

/-- Method `GroundTruthStudy.aggregate_performance_by_units`: asserts that
comparisons exist, then concatenates the per-pair by-unit frames
(`pd.concat` of an empty list raises `ValueError`). -/
def aggregate_performance_by_units (s : Study) :
    Except StudyError PerfTable :=
  match s.comparisons with
  | none => .error (.assertionError "run_comparisons first")
  | some m =>
    match perfFrames m (iter_computed_sorting s.folder) with
    | .error e => .error e
    | .ok frames =>
      if frames.isEmpty then .error (.valueError "No objects to concatenate")
      else .ok frames.flatten

/-- Columns of the `count_units` frame as built by
`aggregate_count_units`: the five base columns, plus the two
exhaustive-ground-truth columns when the batch flag is set. -/
def countColumns (exh : Bool) : List String :=
  ["num_gt", "num_sorter", "num_well_detected", "num_redundant",
   "num_overmerged"] ++
  if exh then ["num_false_positive", "num_bad"] else []

/-- The all-unset row the `count_units` frame starts from. -/
def emptyCells (exh : Bool) : List (Option Nat) :=
  (countColumns exh).map (fun _ => none)

/-- The cells written for one pair by the `aggregate_count_units` loop. -/
def fillCells (exh : Bool) (ngt nsort : Nat) (c : Comparison) :
    List (Option Nat) :=
  [some ngt, some nsort, some c.countWellDetected, some c.countRedundant,
   some c.countOvermerged] ++
  if exh then [some c.countFalsePositive, some c.countBad] else []

/-- Semantics of `df.loc` assignment on the pre-indexed frame: rewrite
every row carrying that key. -/
def setRow (rows : List ((String × String) × List (Option Nat)))
    (p : String × String) (cells : List (Option Nat)) :
    List ((String × String) × List (Option Nat)) :=
  rows.map (fun r => if r.1 = p then (r.1, cells) else r)

/-- Loop of `aggregate_count_units` over the discovered pairs: loads the
ground truth (possibly raising), looks the pair up in the comparison map
(`KeyError` when absent) and writes the row of counts. -/
def countLoop (m : List ((String × String) × Comparison)) (exh : Bool) :
    List (String × String × List Nat) → Study → CountUnitsTable →
    Except StudyError (Study × CountUnitsTable)
  | [], s, tbl => .ok (s, tbl)
  | t :: rest, s, tbl =>
    match get_ground_truth s (some t.1) with
    | .error e => .error e
    | .ok (s, gtU) =>
      match m.lookup (t.1, t.2.1) with
      | none => .error (.keyError (t.1 ++ "/" ++ t.2.1))
      | some comp =>
        countLoop m exh rest s
          { tbl with
            rows := setRow tbl.rows (t.1, t.2.1)
              (fillCells exh gtU.length t.2.2.length comp) }

/-- Method `GroundTruthStudy.aggregate_count_units`: asserts that comparisons
exist, builds the frame indexed by the scanned pair list with the columns
selected by the batch exhaustiveness flag, and fills one row per
discovered pair.  Threshold arguments are forwarded to the external
comparison object and are not part of the model. -/
def aggregate_count_units (s : Study) :
    Except StudyError (Study × CountUnitsTable) :=
  match s.comparisons with
  | none => .error (.assertionError "run_comparisons first")
  | some m =>
    let exh := s.exhaustive_gt.getD false
    countLoop m exh (iter_computed_sorting s.folder) s
      { columns := countColumns exh
        rows := s.computed_names.map (fun p => (p, emptyCells exh)) }

/-- Method `GroundTruthStudy.aggregate_dataframes`: builds the three tables (run
times, per-unit performance, unit counts) and, when `copy_into_folder`
is set, overwrites the exported tables area of the study folder. -/
def aggregate_dataframes (s : Study) (copy_into_folder : Bool) :
    Except StudyError (Study × Dataframes) :=
  let rt := aggregate_run_times s
  match aggregate_performance_by_units s with
  | .error e => .error e
  | .ok pf =>
    match aggregate_count_units s with
    | .error e => .error e
    | .ok (s, cu) =>
      let dfs : Dataframes := ⟨rt, pf, cu⟩
      if copy_into_folder then
        .ok ({ s with folder := { s.folder with tables := some dfs } }, dfs)
      else .ok (s, dfs)

/-- Method `GroundTruthStudy._compute_snr`: loads the recording and ground truth
of the case and invokes the external per-unit SNR computation
(`computeSnrs`, keyed here by case name), pairing unit ids with values. -/
def _compute_snr (computeSnrs : String → List Int) (s : Study)
    (rec_name : String) : Except StudyError (Study × List (Nat × Int)) :=
  match get_recording s (some rec_name) with
  | .error e => .error e
  | .ok (s, _r) =>
    match get_ground_truth s (some rec_name) with
    | .error e => .error e
    | .ok (s, gtU) => .ok (s, gtU.zip (computeSnrs rec_name))

/-- Method `GroundTruthStudy.get_units_snr`: resolves the case, returns the
persisted per-unit SNR file when present, and otherwise computes the
table, persists it under `metrics/` and returns it.  The tab-separated
writer/reader round-trips rows exactly (serialization primitive). -/
def get_units_snr (computeSnrs : String → List Int) (s : Study)
    (rec_name : Option String) :
    Except StudyError (Study × List (Nat × Int)) :=
  match _check_rec_name s rec_name with
  | .error e => .error e
  | .ok (s, rn) =>
    match s.folder.metricsFiles.lookup ("SNR " ++ rn ++ ".txt") with
    | some rows => .ok (s, rows)
    | none =>
      match _compute_snr computeSnrs s rn with
      | .error e => .error e
      | .ok (s, snr) =>
        .ok ({ s with folder := { s.folder with
                 metricsFiles :=
                   s.folder.metricsFiles ++ [("SNR " ++ rn ++ ".txt", snr)] } },
             snr)

/-- Method `GroundTruthStudy.get_sorting`: returns the computed sorting for
`sort_name` on the resolved recording, or `none` when absent. -/
def get_sorting (s : Study) (sort_name : String) (rec_name : Option String) :
    Except StudyError (Study × Option (List Nat)) :=
  match _check_rec_name s rec_name with
  | .error e => .error e
  | .ok (s, rn) =>
    .ok (s,
      if sort_name ∈ s.sorter_names then
        (iter_computed_sorting s.folder).foldl
          (fun sel t => if t.2.1 = sort_name ∧ t.1 = rn then some t.2.2 else sel)
          none
      else none)

/-! ## Pure characterization of recording-name resolution -/

/-- Pure form of `_check_rec_name` on an already-scanned study: the
resolution decision as a function of the known case names alone. -/
def resolve_arg (names : List String) (r : Option String) :
    Except StudyError String :=
  if names.length > 1 ∧ r = none then
    .error (.usageError "Pass rec_name parameter to select which recording to use.")
  else if names.length = 1 then .ok (names.headD "")
  else
    match r with
    | some n =>
      if n ∈ names then .ok n
      else .error (.lookupError "rec_name is not in list")
    | none => .error (.lookupError "rec_name is not in list")

lemma check_rec_name_scanned (s : Study) (r : Option String)
    (h : s.is_scanned = true) :
    _check_rec_name s r = (resolve_arg s.rec_names r).map (fun n => (s, n)) := by
  unfold _check_rec_name resolve_arg
  rw [h]
  simp only [if_true]
  split_ifs with h1 h2
  · rfl
  · rfl
  · cases r with
    | none => rfl
    | some n =>
      by_cases hn : n ∈ s.rec_names
      · simp [hn, Except.map]
      · simp [hn, Except.map]

lemma resolve_arg_idem (names : List String) (r : Option String) (rn : String)
    (h : resolve_arg names r = .ok rn) :
    resolve_arg names (some rn) = .ok rn := by
  unfold resolve_arg at h ⊢
  by_cases h2 : names.length = 1
  · have hgt : ¬ names.length > 1 := by omega
    simp only [hgt, false_and, if_false, h2, if_true] at h ⊢
    exact h
  · have hcn : ¬(names.length > 1 ∧ (some rn : Option String) = none) := by simp
    rw [if_neg hcn, if_neg h2]
    by_cases h1 : names.length > 1 ∧ r = none
    · rw [if_pos h1] at h
      exact absurd h (by simp)
    · rw [if_neg h1, if_neg h2] at h
      cases r with
      | none => exact absurd h (by simp)
      | some n =>
        replace h : (if n ∈ names then Except.ok n
            else Except.error (StudyError.lookupError "rec_name is not in list")) =
            Except.ok rn := h
        show (if rn ∈ names then Except.ok rn
            else Except.error (StudyError.lookupError "rec_name is not in list")) =
            Except.ok rn
        by_cases hn : n ∈ names
        · rw [if_pos hn] at h
          have hnr : n = rn := by simpa using h
          subst hnr
          rw [if_pos hn]
        · rw [if_neg hn] at h
          exact absurd h (by simp)

/-- Ground-truth fetch as a pure function of the study: resolution
followed by lookup of the ground-truth archive. -/
def gtFetch (s : Study) (rec : String) : Option (List Nat) :=
  match resolve_arg s.rec_names (some rec) with
  | .ok r => s.folder.gtUnits.lookup r
  | .error _ => none

lemma get_ground_truth_ok (s : Study) (rec : String) (u : List Nat)
    (h0 : s.is_scanned = true) (h : gtFetch s rec = some u) :
    get_ground_truth s (some rec) = .ok (s, u) := by
  unfold get_ground_truth
  unfold gtFetch at h
  rw [check_rec_name_scanned s _ h0]
  cases hr : resolve_arg s.rec_names (some rec) with
  | error e =>
    rw [hr] at h
    exact Option.noConfusion h
  | ok rn =>
    rw [hr] at h
    have h' : s.folder.gtUnits.lookup rn = some u := h
    simp only [Except.map, h']

/-! ## Concrete studies used as witnesses -/

/-- A one-case, one-engine study folder. -/
def demoFolder : StudyFolder :=
  { recNames := ["rec0"]
    computedPairs := [("rec0", "tdc")]
    runTimes := [(("rec0", "tdc"), 5)]
    gtUnits := [("rec0", [1, 2, 3])]
    sortUnits := [(("rec0", "tdc"), [4, 5])]
    metricsFiles := []
    tables := none }

/-- The in-memory study over `demoFolder` right after construction
(scanned, no comparisons yet). -/
def demoStudy : Study :=
  { folder := demoFolder
    is_scanned := true
    rec_names := ["rec0"]
    computed_names := [("rec0", "tdc")]
    sorter_names := ["tdc"]
    comparisons := none
    exhaustive_gt := none }

/-- A concrete comparison result for the demo studies. -/
def demoComp : Comparison :=
  { perfRows := [(1, 10), (2, 20), (3, 30)]
    countWellDetected := 2
    countRedundant := 0
    countOvermerged := 0
    countFalsePositive := 1
    countBad := 1 }

/-- The study `demoStudy` after `run_comparisons(exhaustive_gt=True)`. -/
def demoStudyC : Study :=
  { demoStudy with
    comparisons := some [(("rec0", "tdc"), demoComp)]
    exhaustive_gt := some true }

/-- A two-case study folder (for the ambiguous-selection branch). -/
def demoFolder2 : StudyFolder :=
  { recNames := ["rec0", "rec1"]
    computedPairs := [("rec0", "tdc"), ("rec1", "tdc")]
    runTimes := [(("rec0", "tdc"), 5), (("rec1", "tdc"), 7)]
    gtUnits := [("rec0", [1, 2, 3]), ("rec1", [1, 2])]
    sortUnits := [(("rec0", "tdc"), [4, 5]), (("rec1", "tdc"), [6])]
    metricsFiles := []
    tables := none }

/-- The scanned in-memory study over `demoFolder2`. -/
def demoStudy2 : Study :=
  { folder := demoFolder2
    is_scanned := true
    rec_names := ["rec0", "rec1"]
    computed_names := [("rec0", "tdc"), ("rec1", "tdc")]
    sorter_names := ["tdc"]
    comparisons := none
    exhaustive_gt := none }

/-! ## C1: case-resolution rule of `_check_rec_name` -/

/-- C1 counterexample: the claim says an explicitly passed name that does
not match a known case always fails with a lookup error, never silently
selecting a different case.  On a study with exactly one case the code
takes the `len(rec_names) == 1` branch before ever looking at the passed
name: the unknown name "nope" silently resolves to "rec0". -/
theorem check_rec_name_unknown_name_counterexample :
    ("nope" ∉ demoStudy.rec_names) ∧
      _check_rec_name demoStudy (some "nope") =
        .ok (demoStudy, "rec0") := by
  refine ⟨by decide, ?_⟩
  rfl

/-- C1 (amended): on a scanned study, `_check_rec_name` (a) with exactly
one known case returns that case for every argument, explicit names
included; (b) with two or more known cases and no explicit name fails
with the usage error; (c) with two or more (or zero) known cases and an
explicit name not matching a known case exactly fails with the lookup
error of `list.index` (no fuzzy lookup). -/
theorem check_rec_name_resolution (s : Study) (h : s.is_scanned = true) :
    (∀ r, s.rec_names = [r] → ∀ n, _check_rec_name s n = .ok (s, r)) ∧
    (1 < s.rec_names.length → _check_rec_name s none =
      .error (.usageError
        "Pass rec_name parameter to select which recording to use.")) ∧
    (∀ n, s.rec_names.length ≠ 1 → n ∉ s.rec_names →
      _check_rec_name s (some n) =
        .error (.lookupError "rec_name is not in list")) := by
  refine ⟨?_, ?_, ?_⟩
  · intro r hr n
    rw [check_rec_name_scanned s n h]
    unfold resolve_arg
    rw [hr]
    cases n <;> simp [Except.map]
  · intro hlen
    rw [check_rec_name_scanned s none h]
    unfold resolve_arg
    rw [if_pos ⟨hlen, rfl⟩]
    rfl
  · intro n hlen hmem
    rw [check_rec_name_scanned s (some n) h]
    unfold resolve_arg
    rw [if_neg (by simp), if_neg hlen]
    simp only [hmem, if_false]
    rfl

/-- Witness for C1 (amended): both the single-case automatic selection
and the two-case usage and lookup errors, at concrete studies. -/
theorem check_rec_name_resolution_witness :
    _check_rec_name demoStudy none = .ok (demoStudy, "rec0") ∧
    _check_rec_name demoStudy2 none =
      .error (.usageError
        "Pass rec_name parameter to select which recording to use.") ∧
    _check_rec_name demoStudy2 (some "ghost") =
      .error (.lookupError "rec_name is not in list") :=
  ⟨(check_rec_name_resolution demoStudy rfl).1 "rec0" rfl none,
   (check_rec_name_resolution demoStudy2 rfl).2.1 (by decide),
   (check_rec_name_resolution demoStudy2 rfl).2.2 "ghost" (by decide) (by decide)⟩

/-! ## C8: idempotent scanning, de-duplicated engine names -/

/-- C8: scanning twice without any change to the folder yields an
identical study (identical case-name, pair and engine-name lists); the
engine-name list is the de-duplicated set of engine names occurring in
the discovered pairs, and — the discovered pairs being distinct files on
disk — the pair list carries no duplicates. -/
theorem scan_folder_idempotent_dedup (s : Study)
    (h : s.folder.computedPairs.Nodup) :
    scan_folder (scan_folder s) = scan_folder s ∧
    (scan_folder s).computed_names.Nodup ∧
    (scan_folder s).sorter_names.Nodup ∧
    (∀ e, e ∈ (scan_folder s).sorter_names ↔
      ∃ r, (r, e) ∈ (scan_folder s).computed_names) := by
  refine ⟨rfl, h, List.nodup_dedup _, ?_⟩
  intro e
  show e ∈ npUnique ((iter_computed_names s.folder).map (fun e => e.2)) ↔ _
  rw [npUnique, List.mem_dedup, List.mem_mergeSort, List.mem_map]
  constructor
  · rintro ⟨a, ha, rfl⟩
    exact ⟨a.1, ha⟩
  · rintro ⟨r, hr⟩
    exact ⟨(r, e), hr, rfl⟩

/-- Witness for C8 on the two-case demo study. -/
theorem scan_folder_idempotent_dedup_witness :
    scan_folder (scan_folder demoStudy2) = scan_folder demoStudy2 ∧
      (scan_folder demoStudy2).sorter_names.Nodup :=
  ⟨(scan_folder_idempotent_dedup demoStudy2 (by decide)).1,
   (scan_folder_idempotent_dedup demoStudy2 (by decide)).2.2.1⟩

/-! ## C4: the Run Dispatcher's mode argument -/

/-- Engine stub whose output and run time differ from what is already on
disk in `demoFolder`. -/
def demoEngineUnits : String × String → List Nat := fun _ => [9]

/-- Engine stub reporting a run time of 99 (the stored record is 5). -/
def demoEngineTime : String × String → Nat := fun _ => 99

/-- C4: `run_sorters` accepts a `mode` argument but does not forward it to
`run_study_sorters`, so dispatch behaves identically for every mode; in
particular over the fully computed `demoStudy`, mode "overwrite" performs
no recomputation and leaves the stored run-time record 5 untouched even
though the engine would now record 99 — contradicting the claim that
"overwrite" always (re)runs every pair. -/
theorem run_sorters_mode_dropped :
    (∀ (eu : String × String → List Nat) (et : String × String → Nat)
        (s : Study) (l : List String) (m₁ m₂ : String),
      run_sorters eu et s l m₁ = run_sorters eu et s l m₂) ∧
    demoEngineTime ("rec0", "tdc") = 99 ∧
    run_sorters demoEngineUnits demoEngineTime demoStudy ["tdc"] "overwrite" =
      demoStudy := by
  refine ⟨fun eu et s l m₁ m₂ => rfl, rfl, ?_⟩
  rfl

/-! ## C9: unknown engine names in `get_sorting` -/

/-- C9 counterexample: an explicit engine name that does not exist in the
scanned study is not surfaced as a lookup error: `get_sorting` returns
`None` normally. -/
theorem get_sorting_unknown_engine_counterexample :
    ("ghost" ∉ demoStudy.sorter_names) ∧
      get_sorting demoStudy "ghost" none = .ok (demoStudy, none) := by
  refine ⟨by decide, ?_⟩
  rfl

lemma get_sorting_fold_none (sort_name r : String)
    (l : List (String × String × List Nat))
    (h : ∀ t ∈ l, ¬(t.2.1 = sort_name ∧ t.1 = r)) :
    l.foldl
        (fun sel t => if t.2.1 = sort_name ∧ t.1 = r then some t.2.2 else sel)
        none = none := by
  induction l with
  | nil => rfl
  | cons t rest ih =>
    rw [List.foldl_cons, if_neg (h t (List.mem_cons_self t rest))]
    exact ih (fun t' ht' => h t' (List.mem_cons_of_mem t ht'))

/-- C9 (amended): for every scanned study whose recording name resolves,
`get_sorting` never raises — only the recording-name resolution inside it
can raise — and it silently returns `None` both for an engine name not
among the known engine names and for any engine (known or not) with no
computed output for the resolved case. -/
theorem get_sorting_unknown_engine (s : Study) (sort_name : String)
    (rn : Option String) (r : String)
    (h0 : s.is_scanned = true)
    (hres : resolve_arg s.rec_names rn = .ok r) :
    (∃ res, get_sorting s sort_name rn = .ok (s, res)) ∧
    (sort_name ∉ s.sorter_names → get_sorting s sort_name rn = .ok (s, none)) ∧
    ((r, sort_name) ∉ s.folder.computedPairs →
      get_sorting s sort_name rn = .ok (s, none)) := by
  have hred : get_sorting s sort_name rn = .ok (s,
      if sort_name ∈ s.sorter_names then
        (iter_computed_sorting s.folder).foldl
          (fun sel t => if t.2.1 = sort_name ∧ t.1 = r then some t.2.2 else sel)
          none
      else none) := by
    unfold get_sorting
    rw [check_rec_name_scanned s rn h0, hres]
    rfl
  refine ⟨⟨_, hred⟩, ?_, ?_⟩
  · intro hmem
    rw [hred, if_neg hmem]
  · intro hnp
    rw [hred]
    by_cases hmem : sort_name ∈ s.sorter_names
    · have hnone := get_sorting_fold_none sort_name r
        (iter_computed_sorting s.folder) (by
          rintro t ht ⟨hts, htr⟩
          obtain ⟨p, hp, rfl⟩ := List.mem_map.mp ht
          subst hts
          subst htr
          exact hnp hp)
      rw [if_pos hmem, hnone]
    · rw [if_neg hmem]

/-- A two-case study folder in which engine s2 has output only for rec1,
so the (rec0, s2) pair is absent while s2 is a known engine name. -/
def demoFolder3 : StudyFolder :=
  { recNames := ["rec0", "rec1"]
    computedPairs := [("rec0", "s1"), ("rec1", "s2")]
    runTimes := [(("rec0", "s1"), 3), (("rec1", "s2"), 4)]
    gtUnits := [("rec0", [1, 2]), ("rec1", [1])]
    sortUnits := [(("rec0", "s1"), [5]), (("rec1", "s2"), [6])]
    metricsFiles := []
    tables := none }

/-- The scanned in-memory study over `demoFolder3`. -/
def demoStudy3 : Study :=
  { folder := demoFolder3
    is_scanned := true
    rec_names := ["rec0", "rec1"]
    computed_names := [("rec0", "s1"), ("rec1", "s2")]
    sorter_names := ["s1", "s2"]
    comparisons := none
    exhaustive_gt := none }

/-- Witness for C9 (amended): an unknown engine name on the one-case demo
study, and a known engine (s2) with no computed output for the resolved
case rec0 on the two-case demo study; both return `None` normally. -/
theorem get_sorting_unknown_engine_witness :
    get_sorting demoStudy "ghost" (some "whatever") = .ok (demoStudy, none) ∧
    get_sorting demoStudy3 "s2" (some "rec0") = .ok (demoStudy3, none) :=
  ⟨(get_sorting_unknown_engine demoStudy "ghost" (some "whatever") "rec0"
      rfl rfl).2.1 (by decide),
   (get_sorting_unknown_engine demoStudy3 "s2" (some "rec0") "rec0"
      rfl rfl).2.2 (by decide)⟩

/-! ## C2: `run_comparisons` replaces the map wholesale -/

lemma compLoop_ok (cmp : List Nat → List Nat → Bool → Comparison)
    (exh : Bool) (pairs : List (String × String × List Nat)) (s : Study)
    (acc : List ((String × String) × Comparison))
    (h0 : s.is_scanned = true) (hacc : s.comparisons = some acc)
    (hg : ∀ t ∈ pairs, (gtFetch s t.1).isSome) :
    compLoop cmp exh pairs s =
      .ok { s with
            comparisons := some (acc ++ pairs.map
              (fun t => ((t.1, t.2.1), cmp ((gtFetch s t.1).getD []) t.2.2 exh)))
            exhaustive_gt := some exh } := by
  induction pairs generalizing s acc with
  | nil =>
    rw [compLoop, List.map_nil, List.append_nil, ← hacc]
  | cons t rest ih =>
    obtain ⟨u, hu⟩ := Option.isSome_iff_exists.mp (hg t (by simp))
    rw [compLoop, get_ground_truth_ok s t.1 u h0 hu]
    show compLoop cmp exh rest
        { s with comparisons := some (s.comparisons.getD [] ++
            [((t.1, t.2.1), cmp u t.2.2 exh)]) } = _
    rw [hacc]
    simp only [Option.getD_some]
    have step := ih { s with comparisons := some (acc ++ [((t.1, t.2.1), cmp u t.2.2 exh)]) }
      (acc ++ [((t.1, t.2.1), cmp u t.2.2 exh)]) h0 rfl
      (fun t' ht' => hg t' (List.mem_cons_of_mem t ht'))
    rw [step]
    rw [List.map_cons, List.append_assoc, List.singleton_append, hu]
    rfl

/-- C2: a successful `run_comparisons` call stores exactly one scored
result for every currently discovered (case, engine) pair, keyed by that
pair, records the single batch flag `exh` uniformly, and its result does
not depend on any previously held comparison map or flag (the prior
in-memory map is discarded wholesale, not merged). -/
theorem run_comparisons_wholesale (cmp : List Nat → List Nat → Bool → Comparison)
    (s : Study) (exh : Bool) (h0 : s.is_scanned = true)
    (hg : ∀ t ∈ iter_computed_sorting s.folder, (gtFetch s t.1).isSome) :
    run_comparisons cmp s exh =
      .ok { s with
            comparisons := some ((iter_computed_sorting s.folder).map
              (fun t => ((t.1, t.2.1), cmp ((gtFetch s t.1).getD []) t.2.2 exh)))
            exhaustive_gt := some exh } ∧
    (∀ c₀ g₀,
      run_comparisons cmp { s with comparisons := c₀, exhaustive_gt := g₀ } exh =
        run_comparisons cmp s exh) := by
  constructor
  · exact compLoop_ok cmp exh (iter_computed_sorting s.folder)
      { s with comparisons := some [] } [] h0 rfl hg
  · intro c₀ g₀
    have A := compLoop_ok cmp exh
      (iter_computed_sorting ({ s with comparisons := c₀, exhaustive_gt := g₀ }).folder)
      { s with comparisons := some [], exhaustive_gt := g₀ } [] h0 rfl hg
    have B := compLoop_ok cmp exh (iter_computed_sorting s.folder)
      { s with comparisons := some [] } [] h0 rfl hg
    show compLoop cmp exh _ _ = compLoop cmp exh _ _
    rw [A, B]
    rfl

/-- Witness for C2 at the one-pair demo study. -/
theorem run_comparisons_wholesale_witness :
    run_comparisons (fun _ _ _ => demoComp) demoStudy true =
      .ok { demoStudy with
            comparisons := some [(("rec0", "tdc"), demoComp)]
            exhaustive_gt := some true } := by
  have h := (run_comparisons_wholesale (fun _ _ _ => demoComp) demoStudy true rfl
    (by decide)).1
  rw [h]
  rfl

/-! ## C3: aggregation before `run_comparisons` -/

/-- C3 counterexample: on a freshly constructed study on which
`run_comparisons` has never been called, `aggregate_run_times` does not
fail fast with a "call run_comparisons first" error: it produces the
run-time table read from the folder. -/
theorem aggregate_run_times_no_precondition_counterexample :
    demoStudy.comparisons = none ∧
      aggregate_run_times demoStudy = [(("rec0", "tdc"), 5)] :=
  ⟨rfl, rfl⟩

/-- C3 (amended): with no comparisons run in this process,
`aggregate_performance_by_units`, `aggregate_count_units` and
`aggregate_dataframes` fail fast with the "run_comparisons first"
assertion error, but `aggregate_run_times` performs no such check and
returns the folder's run-time table. -/
theorem aggregation_precondition (s : Study) (b : Bool)
    (h : s.comparisons = none) :
    aggregate_performance_by_units s =
      .error (.assertionError "run_comparisons first") ∧
    aggregate_count_units s =
      .error (.assertionError "run_comparisons first") ∧
    aggregate_dataframes s b =
      .error (.assertionError "run_comparisons first") ∧
    aggregate_run_times s = collect_run_times s.folder := by
  refine ⟨?_, ?_, ?_, rfl⟩
  · unfold aggregate_performance_by_units
    rw [h]
  · unfold aggregate_count_units
    rw [h]
  · unfold aggregate_dataframes aggregate_performance_by_units
    rw [h]

/-- Witness for C3 (amended) on the fresh demo study. -/
theorem aggregation_precondition_witness :
    aggregate_count_units demoStudy =
      .error (.assertionError "run_comparisons first") ∧
    aggregate_dataframes demoStudy true =
      .error (.assertionError "run_comparisons first") :=
  ⟨(aggregation_precondition demoStudy true rfl).2.1,
   (aggregation_precondition demoStudy true rfl).2.2.1⟩

/-! ## Characterization of `aggregate_count_units` -/

/-- Placeholder comparison used only to state total lookups in
characterization lemmas; never reached under the stated hypotheses. -/
def comparisonDefault : Comparison := ⟨[], 0, 0, 0, 0, 0⟩

/-- The cells the `aggregate_count_units` loop ends up writing for a
pair, as a pure function of the study, the comparison map and the flag. -/
def expectedCells (s : Study) (m : List ((String × String) × Comparison))
    (exh : Bool) (p : String × String) : List (Option Nat) :=
  fillCells exh ((gtFetch s p.1).getD []).length
    ((s.folder.sortUnits.lookup p).getD []).length
    ((m.lookup p).getD comparisonDefault)

lemma setRow_map_filled (rows : List ((String × String) × List (Option Nat)))
    (k : String × String) (e : List (Option Nat))
    (ks : List (String × String)) (f : String × String → List (Option Nat))
    (he : e = f k) :
    (setRow rows k e).map
        (fun row => if row.1 ∈ ks then (row.1, f row.1) else row) =
      rows.map (fun row => if row.1 ∈ k :: ks then (row.1, f row.1) else row) := by
  subst he
  unfold setRow
  rw [List.map_map]
  apply List.map_congr_left
  intro row _
  simp only [Function.comp]
  by_cases hk : row.1 = k
  · by_cases hks : k ∈ ks <;> simp [hk, hks]
  · by_cases hks : row.1 ∈ ks <;> simp [hk, hks, List.mem_cons]

lemma countLoop_ok (m : List ((String × String) × Comparison)) (exh : Bool)
    (pairs : List (String × String × List Nat)) (s : Study)
    (tbl : CountUnitsTable) (h0 : s.is_scanned = true)
    (hpairs : ∀ t ∈ pairs, t.2.2 = (s.folder.sortUnits.lookup (t.1, t.2.1)).getD [])
    (hg : ∀ t ∈ pairs, (gtFetch s t.1).isSome)
    (hm : ∀ t ∈ pairs, (m.lookup (t.1, t.2.1)).isSome) :
    countLoop m exh pairs s tbl = .ok (s,
      { tbl with rows := tbl.rows.map (fun row =>
          if row.1 ∈ pairs.map (fun t => (t.1, t.2.1))
          then (row.1, expectedCells s m exh row.1) else row) }) := by
  induction pairs generalizing tbl with
  | nil =>
    rw [countLoop]
    simp
  | cons t rest ih =>
    obtain ⟨u, hu⟩ := Option.isSome_iff_exists.mp (hg t (by simp))
    obtain ⟨comp, hcomp⟩ := Option.isSome_iff_exists.mp (hm t (by simp))
    rw [countLoop, get_ground_truth_ok s t.1 u h0 hu]
    show (match m.lookup (t.1, t.2.1) with
      | none => Except.error (StudyError.keyError (t.1 ++ "/" ++ t.2.1))
      | some comp => countLoop m exh rest s { tbl with
          rows := setRow tbl.rows (t.1, t.2.1)
            (fillCells exh u.length t.2.2.length comp) }) = _
    rw [hcomp]
    show countLoop m exh rest s { tbl with
        rows := setRow tbl.rows (t.1, t.2.1)
          (fillCells exh u.length t.2.2.length comp) } = _
    rw [ih _ (fun t' h => hpairs t' (List.mem_cons_of_mem t h))
      (fun t' h => hg t' (List.mem_cons_of_mem t h))
      (fun t' h => hm t' (List.mem_cons_of_mem t h))]
    have he : fillCells exh u.length t.2.2.length comp =
        expectedCells s m exh (t.1, t.2.1) := by
      unfold expectedCells
      rw [hu, hcomp, hpairs t (List.mem_cons_self t rest)]
      rfl
    rw [List.map_cons]
    exact congrArg _ (congrArg _ (congrArg _
      (setRow_map_filled tbl.rows (t.1, t.2.1) _ _ _ he)))

lemma aggregate_count_units_ok (s : Study)
    (m : List ((String × String) × Comparison)) (exh : Bool)
    (h0 : s.is_scanned = true) (h1 : s.comparisons = some m)
    (h5 : s.exhaustive_gt = some exh)
    (h4 : s.computed_names = s.folder.computedPairs)
    (hg : ∀ p ∈ s.folder.computedPairs, (gtFetch s p.1).isSome)
    (hm : ∀ p ∈ s.folder.computedPairs, (m.lookup p).isSome) :
    aggregate_count_units s = .ok (s,
      { columns := countColumns exh
        rows := s.computed_names.map (fun p => (p, expectedCells s m exh p)) }) := by
  unfold aggregate_count_units
  rw [h1]
  show countLoop m (s.exhaustive_gt.getD false) (iter_computed_sorting s.folder) s
      { columns := countColumns (s.exhaustive_gt.getD false)
        rows := s.computed_names.map
          (fun p => (p, emptyCells (s.exhaustive_gt.getD false))) } = _
  rw [h5]
  simp only [Option.getD_some]
  rw [countLoop_ok m exh (iter_computed_sorting s.folder) s _ h0
    (by rintro t ht
        obtain ⟨p, hp, rfl⟩ := List.mem_map.mp ht
        rfl)
    (by rintro t ht
        obtain ⟨p, hp, rfl⟩ := List.mem_map.mp ht
        exact hg p hp)
    (by rintro t ht
        obtain ⟨p, hp, rfl⟩ := List.mem_map.mp ht
        exact hm p hp)]
  have hkeys : (iter_computed_sorting s.folder).map (fun t => (t.1, t.2.1)) =
      s.folder.computedPairs := by
    unfold iter_computed_sorting
    rw [List.map_map]
    exact List.map_id _
  rw [hkeys]
  rw [List.map_map]
  simp only [Except.ok.injEq, Prod.mk.injEq, CountUnitsTable.mk.injEq, true_and]
  apply List.map_congr_left
  intro p hp
  have hp2 : p ∈ s.folder.computedPairs := h4 ▸ hp
  simp [Function.comp, hp2]

/-! ## C5: shape of the `count_units` table -/

lemma fillCells_isSome (exh : Bool) (g n : Nat) (c : Comparison) :
    ∀ x ∈ fillCells exh g n c, x.isSome := by
  intro x hx
  cases exh with
  | false =>
    simp only [fillCells, Bool.false_eq_true, if_false, List.append_nil,
      List.mem_cons, List.not_mem_nil, or_false] at hx
    rcases hx with rfl | rfl | rfl | rfl | rfl <;> rfl
  | true =>
    simp only [fillCells, if_true, List.mem_append, List.mem_cons,
      List.not_mem_nil, or_false] at hx
    rcases hx with (rfl | rfl | rfl | rfl | rfl) | (rfl | rfl) <;> rfl

lemma map_fst_pairing {α β : Type} (l : List α) (f : α → β) :
    (l.map (fun p => (p, f p))).map (fun r => r.1) = l := by
  rw [List.map_map]
  exact List.map_id _

/-- C5: after a successful batch of comparisons over an unchanged scanned
study, `aggregate_count_units` returns a table with exactly one row per
discovered (case, engine) computed pair, keyed by (case name, engine
name); when the batch exhaustiveness flag is true the columns include
num_false_positive and num_bad and every cell of every row is populated;
when the flag is false those two columns are absent. -/
theorem aggregate_count_units_shape (s : Study)
    (m : List ((String × String) × Comparison)) (exh : Bool)
    (h0 : s.is_scanned = true) (h1 : s.comparisons = some m)
    (h5 : s.exhaustive_gt = some exh)
    (h4 : s.computed_names = s.folder.computedPairs)
    (hg : ∀ p ∈ s.folder.computedPairs, (gtFetch s p.1).isSome)
    (hm : ∀ p ∈ s.folder.computedPairs, (m.lookup p).isSome) :
    ∃ tbl, aggregate_count_units s = .ok (s, tbl) ∧
      tbl.rows.map (fun r => r.1) = s.computed_names ∧
      tbl.rows.length = s.computed_names.length ∧
      tbl.columns = countColumns exh ∧
      (exh = true → "num_false_positive" ∈ tbl.columns ∧
        "num_bad" ∈ tbl.columns ∧ ∀ r ∈ tbl.rows, ∀ c ∈ r.2, c.isSome) ∧
      (exh = false → "num_false_positive" ∉ tbl.columns ∧
        "num_bad" ∉ tbl.columns) := by
  refine ⟨_, aggregate_count_units_ok s m exh h0 h1 h5 h4 hg hm,
    map_fst_pairing _ _, by simp, rfl, ?_, ?_⟩
  · rintro rfl
    refine ⟨?_, ?_, ?_⟩
    · show "num_false_positive" ∈ countColumns true
      decide
    · show "num_bad" ∈ countColumns true
      decide
    · intro r hr c hc
      obtain ⟨p, hp, rfl⟩ := List.mem_map.mp hr
      exact fillCells_isSome true _ _ _ c hc
  · rintro rfl
    constructor
    · show "num_false_positive" ∉ countColumns false
      decide
    · show "num_bad" ∉ countColumns false
      decide

/-- Witness for C5 on the one-pair exhaustive demo study. -/
theorem aggregate_count_units_shape_witness :
    ∃ tbl, aggregate_count_units demoStudyC = .ok (demoStudyC, tbl) ∧
      tbl.columns = countColumns true ∧
      tbl.rows.map (fun r => r.1) = [("rec0", "tdc")] := by
  obtain ⟨tbl, ha, hb, _, hc, _, _⟩ := aggregate_count_units_shape demoStudyC
    [(("rec0", "tdc"), demoComp)] true rfl rfl rfl rfl (by decide) (by decide)
  exact ⟨tbl, ha, hc, hb⟩

/-! ## C6: row order of the aggregated tables -/

/-- A two-engine study folder whose outputs are discovered in the order
s1, s2. -/
def demoFolderA : StudyFolder :=
  { recNames := ["rec0"]
    computedPairs := [("rec0", "s1"), ("rec0", "s2")]
    runTimes := [(("rec0", "s1"), 1), (("rec0", "s2"), 2)]
    gtUnits := [("rec0", [1, 2])]
    sortUnits := [(("rec0", "s1"), [7]), (("rec0", "s2"), [8, 9])]
    metricsFiles := []
    tables := none }

/-- The same persistent contents as `demoFolderA`, discovered in the
opposite order. -/
def demoFolderB : StudyFolder :=
  { demoFolderA with computedPairs := [("rec0", "s2"), ("rec0", "s1")] }

/-- The comparison map shared by the order-variant demo studies. -/
def demoCompsAB : List ((String × String) × Comparison) :=
  [(("rec0", "s1"), demoComp), (("rec0", "s2"), demoComp)]

/-- Scanned study over `demoFolderA` with comparisons run
(non-exhaustive). -/
def demoStudyA : Study :=
  { folder := demoFolderA
    is_scanned := true
    rec_names := ["rec0"]
    computed_names := [("rec0", "s1"), ("rec0", "s2")]
    sorter_names := ["s1", "s2"]
    comparisons := some demoCompsAB
    exhaustive_gt := some false }

/-- Scanned study over `demoFolderB` with the same comparisons. -/
def demoStudyB : Study :=
  { folder := demoFolderB
    is_scanned := true
    rec_names := ["rec0"]
    computed_names := [("rec0", "s2"), ("rec0", "s1")]
    sorter_names := ["s1", "s2"]
    comparisons := some demoCompsAB
    exhaustive_gt := some false }

/-- C6 counterexample: two studies with equal persistent contents (the
pair lists are permutations of each other; run times, ground truths and
outputs identical) whose pairs are discovered in different orders produce
`count_units` tables whose rows are in a different order — no stable
(case, engine) key ordering is applied. -/
theorem count_units_row_order_counterexample :
    demoFolderB.computedPairs = demoFolderA.computedPairs.reverse ∧
    demoFolderB.runTimes = demoFolderA.runTimes ∧
    demoFolderB.gtUnits = demoFolderA.gtUnits ∧
    demoFolderB.sortUnits = demoFolderA.sortUnits ∧
    (aggregate_count_units demoStudyA).toOption.map
        (fun x => x.2.rows.map (fun r => r.1)) =
      some [("rec0", "s1"), ("rec0", "s2")] ∧
    (aggregate_count_units demoStudyB).toOption.map
        (fun x => x.2.rows.map (fun r => r.1)) =
      some [("rec0", "s2"), ("rec0", "s1")] :=
  ⟨rfl, rfl, rfl, rfl, rfl, rfl⟩

lemma expectedCells_congr (s₁ s₂ : Study)
    (m : List ((String × String) × Comparison)) (exh : Bool)
    (heqr : s₂.rec_names = s₁.rec_names)
    (heqg : s₂.folder.gtUnits = s₁.folder.gtUnits)
    (heqs : s₂.folder.sortUnits = s₁.folder.sortUnits) (p : String × String) :
    expectedCells s₂ m exh p = expectedCells s₁ m exh p := by
  unfold expectedCells gtFetch
  rw [heqr, heqg, heqs]

lemma map_isEmpty_false {α β : Type} (l : List α) (f : α → β) (h : l ≠ []) :
    (l.map f).isEmpty = false := by
  cases l with
  | nil => exact absurd rfl h
  | cons a l => rfl

lemma perfFrames_ok (m : List ((String × String) × Comparison))
    (pairs : List (String × String × List Nat))
    (hm : ∀ t ∈ pairs, (m.lookup (t.1, t.2.1)).isSome) :
    perfFrames m pairs = .ok (pairs.map (fun t =>
      ((m.lookup (t.1, t.2.1)).getD comparisonDefault).perfRows.map
        (fun r => ((t.1, t.2.1, r.1), r.2)))) := by
  induction pairs with
  | nil => rfl
  | cons t rest ih =>
    obtain ⟨comp, hcomp⟩ := Option.isSome_iff_exists.mp (hm t (by simp))
    rw [perfFrames, hcomp]
    show (match perfFrames m rest with
      | Except.error e => Except.error e
      | Except.ok fs =>
        Except.ok ((comp.perfRows.map
          (fun r : Nat × Int => ((t.1, t.2.1, r.1), r.2))) :: fs)) = _
    rw [ih (fun t' h => hm t' (List.mem_cons_of_mem t h))]
    rw [List.map_cons, hcomp]
    rfl

lemma aggregate_performance_by_units_ok (s : Study)
    (m : List ((String × String) × Comparison))
    (h1 : s.comparisons = some m)
    (hm : ∀ p ∈ s.folder.computedPairs, (m.lookup p).isSome)
    (hne : s.folder.computedPairs ≠ []) :
    aggregate_performance_by_units s =
      .ok (((iter_computed_sorting s.folder).map (fun t =>
        ((m.lookup (t.1, t.2.1)).getD comparisonDefault).perfRows.map
          (fun r => ((t.1, t.2.1, r.1), r.2)))).flatten) := by
  unfold aggregate_performance_by_units
  rw [h1]
  show (match perfFrames m (iter_computed_sorting s.folder) with
    | Except.error e => Except.error e
    | Except.ok frames =>
      if frames.isEmpty then
        Except.error (StudyError.valueError "No objects to concatenate")
      else Except.ok frames.flatten) = _
  rw [perfFrames_ok m _ (by
    rintro t ht
    obtain ⟨p, hp, rfl⟩ := List.mem_map.mp ht
    exact hm p hp)]
  show (if ((iter_computed_sorting s.folder).map _).isEmpty then _ else _) = _
  rw [map_isEmpty_false _ _ (by
    unfold iter_computed_sorting
    simp [hne])]
  rfl

/-- C6 (amended): none of the three aggregated tables is sorted by
(case name, engine name, [unit id]): `count_units` rows and the per-pair
blocks of `perf_by_units` follow the discovery order of the
(case, engine) pairs, and `run_times` rows follow the order in which the
run-time records are read from the folder.  Consequently two studies with
equal per-pair contents whose pairs (and run-time records) are discovered
in different orders produce tables with the same rows up to permutation,
not row-for-row identical tables. -/
theorem aggregated_tables_follow_discovery (s₁ s₂ : Study)
    (m : List ((String × String) × Comparison)) (exh : Bool)
    (h0₁ : s₁.is_scanned = true) (h1₁ : s₁.comparisons = some m)
    (h5₁ : s₁.exhaustive_gt = some exh)
    (h4₁ : s₁.computed_names = s₁.folder.computedPairs)
    (hg₁ : ∀ p ∈ s₁.folder.computedPairs, (gtFetch s₁ p.1).isSome)
    (hm₁ : ∀ p ∈ s₁.folder.computedPairs, (m.lookup p).isSome)
    (h0₂ : s₂.is_scanned = true) (h1₂ : s₂.comparisons = some m)
    (h5₂ : s₂.exhaustive_gt = some exh)
    (h4₂ : s₂.computed_names = s₂.folder.computedPairs)
    (hg₂ : ∀ p ∈ s₂.folder.computedPairs, (gtFetch s₂ p.1).isSome)
    (hm₂ : ∀ p ∈ s₂.folder.computedPairs, (m.lookup p).isSome)
    (hne₁ : s₁.folder.computedPairs ≠ [])
    (hne₂ : s₂.folder.computedPairs ≠ [])
    (heqr : s₂.rec_names = s₁.rec_names)
    (heqg : s₂.folder.gtUnits = s₁.folder.gtUnits)
    (heqs : s₂.folder.sortUnits = s₁.folder.sortUnits)
    (hperm : s₂.computed_names.Perm s₁.computed_names)
    (hrt : s₂.folder.runTimes.Perm s₁.folder.runTimes) :
    (∃ t₁ t₂, aggregate_count_units s₁ = .ok (s₁, t₁) ∧
      aggregate_count_units s₂ = .ok (s₂, t₂) ∧
      t₁.rows.map (fun r => r.1) = s₁.computed_names ∧
      t₂.rows.map (fun r => r.1) = s₂.computed_names ∧
      t₂.columns = t₁.columns ∧ t₂.rows.Perm t₁.rows) ∧
    (∃ p₁ p₂, aggregate_performance_by_units s₁ = .ok p₁ ∧
      aggregate_performance_by_units s₂ = .ok p₂ ∧
      p₁ = ((iter_computed_sorting s₁.folder).map (fun t =>
        ((m.lookup (t.1, t.2.1)).getD comparisonDefault).perfRows.map
          (fun r => ((t.1, t.2.1, r.1), r.2)))).flatten ∧
      p₂ = ((iter_computed_sorting s₂.folder).map (fun t =>
        ((m.lookup (t.1, t.2.1)).getD comparisonDefault).perfRows.map
          (fun r => ((t.1, t.2.1, r.1), r.2)))).flatten ∧
      p₂.Perm p₁) ∧
    (aggregate_run_times s₁ = s₁.folder.runTimes ∧
      aggregate_run_times s₂ = s₂.folder.runTimes ∧
      (aggregate_run_times s₂).Perm (aggregate_run_times s₁)) := by
  have hpairsPerm : s₂.folder.computedPairs.Perm s₁.folder.computedPairs := by
    rw [← h4₂, ← h4₁]
    exact hperm
  refine ⟨?_, ?_, rfl, rfl, hrt⟩
  · refine ⟨_, _, aggregate_count_units_ok s₁ m exh h0₁ h1₁ h5₁ h4₁ hg₁ hm₁,
      aggregate_count_units_ok s₂ m exh h0₂ h1₂ h5₂ h4₂ hg₂ hm₂,
      map_fst_pairing _ _, map_fst_pairing _ _, rfl, ?_⟩
    show (s₂.computed_names.map (fun p => (p, expectedCells s₂ m exh p))).Perm
        (s₁.computed_names.map (fun p => (p, expectedCells s₁ m exh p)))
    have hmap : s₂.computed_names.map (fun p => (p, expectedCells s₂ m exh p)) =
        s₂.computed_names.map (fun p => (p, expectedCells s₁ m exh p)) := by
      apply List.map_congr_left
      intro p _
      rw [expectedCells_congr s₁ s₂ m exh heqr heqg heqs p]
    rw [hmap]
    exact hperm.map _
  · refine ⟨_, _, aggregate_performance_by_units_ok s₁ m h1₁ hm₁ hne₁,
      aggregate_performance_by_units_ok s₂ m h1₂ hm₂ hne₂, rfl, rfl, ?_⟩
    have key : ∀ f : StudyFolder, (iter_computed_sorting f).map (fun t =>
        ((m.lookup (t.1, t.2.1)).getD comparisonDefault).perfRows.map
          (fun r => ((t.1, t.2.1, r.1), r.2))) =
        f.computedPairs.map (fun p =>
          ((m.lookup p).getD comparisonDefault).perfRows.map
            (fun r => ((p.1, p.2, r.1), r.2))) := by
      intro f
      unfold iter_computed_sorting
      rw [List.map_map]
      apply List.map_congr_left
      intro p _
      rfl
    show (((iter_computed_sorting s₂.folder).map _).flatten).Perm
        (((iter_computed_sorting s₁.folder).map _).flatten)
    rw [key s₂.folder, key s₁.folder]
    exact (hpairsPerm.map _).flatten

/-- Witness for C6 (amended) on the order-variant demo studies: the
count-units rows, the perf-by-units rows and the run-times rows of the
two discovery orders are permutations of each other. -/
theorem aggregated_tables_follow_discovery_witness :
    (∃ t₁ t₂, aggregate_count_units demoStudyA = .ok (demoStudyA, t₁) ∧
      aggregate_count_units demoStudyB = .ok (demoStudyB, t₂) ∧
      t₁.rows.map (fun r => r.1) = demoStudyA.computed_names ∧
      t₂.rows.map (fun r => r.1) = demoStudyB.computed_names ∧
      t₂.columns = t₁.columns ∧ t₂.rows.Perm t₁.rows) ∧
    (∃ p₁ p₂, aggregate_performance_by_units demoStudyA = .ok p₁ ∧
      aggregate_performance_by_units demoStudyB = .ok p₂ ∧ p₂.Perm p₁) ∧
    (aggregate_run_times demoStudyB).Perm (aggregate_run_times demoStudyA) := by
  obtain ⟨hcount, ⟨p₁, p₂, e₁, e₂, _, _, hpp⟩, _, _, hrt⟩ :=
    aggregated_tables_follow_discovery demoStudyA demoStudyB demoCompsAB false
      rfl rfl rfl rfl (by decide) (by decide)
      rfl rfl rfl rfl (by decide) (by decide)
      (by decide) (by decide)
      rfl rfl rfl (by decide) (by decide)
  exact ⟨hcount, ⟨p₁, p₂, e₁, e₂, hpp⟩, hrt⟩

/-! ## C10: aggregation leaves the in-memory state unchanged -/

/-- C10: under their preconditions the aggregation methods leave the
in-memory study state (rec_names, computed_names, sorter_names,
comparisons, exhaustive_gt) unchanged: `aggregate_count_units` returns
the very same study, `aggregate_performance_by_units` and
`aggregate_run_times` return tables alone, and `aggregate_dataframes`
returns the same study unchanged when not persisting, and with only the
exported tables area of the folder overwritten when persisting. -/
theorem aggregation_frame (s : Study)
    (m : List ((String × String) × Comparison)) (exh : Bool)
    (h0 : s.is_scanned = true) (h1 : s.comparisons = some m)
    (h5 : s.exhaustive_gt = some exh)
    (h4 : s.computed_names = s.folder.computedPairs)
    (hg : ∀ p ∈ s.folder.computedPairs, (gtFetch s p.1).isSome)
    (hm : ∀ p ∈ s.folder.computedPairs, (m.lookup p).isSome)
    (hne : s.folder.computedPairs ≠ []) :
    (∃ t, aggregate_count_units s = .ok (s, t)) ∧
    (∃ pf, aggregate_performance_by_units s = .ok pf) ∧
    aggregate_run_times s = collect_run_times s.folder ∧
    (∃ dfs, aggregate_dataframes s false = .ok (s, dfs)) ∧
    (∃ dfs, aggregate_dataframes s true =
      .ok ({ s with folder := { s.folder with tables := some dfs } }, dfs)) := by
  obtain ⟨cu, Hcu⟩ : ∃ cu, aggregate_count_units s = .ok (s, cu) :=
    ⟨_, aggregate_count_units_ok s m exh h0 h1 h5 h4 hg hm⟩
  obtain ⟨pf, Hpf⟩ : ∃ pf, aggregate_performance_by_units s = .ok pf :=
    ⟨_, aggregate_performance_by_units_ok s m h1 hm hne⟩
  refine ⟨⟨cu, Hcu⟩, ⟨pf, Hpf⟩, rfl,
    ⟨⟨aggregate_run_times s, pf, cu⟩, ?_⟩,
    ⟨⟨aggregate_run_times s, pf, cu⟩, ?_⟩⟩
  · simp [aggregate_dataframes, Hpf, Hcu]
  · simp [aggregate_dataframes, Hpf, Hcu]

/-- Witness for C10 on the one-pair exhaustive demo study. -/
theorem aggregation_frame_witness :
    (∃ t, aggregate_count_units demoStudyC = .ok (demoStudyC, t)) ∧
    (∃ dfs, aggregate_dataframes demoStudyC true =
      .ok ({ demoStudyC with
             folder := { demoStudyC.folder with tables := some dfs } }, dfs)) := by
  obtain ⟨ha, _, _, _, hb⟩ := aggregation_frame demoStudyC
    [(("rec0", "tdc"), demoComp)] true rfl rfl rfl rfl
    (by decide) (by decide) (by decide)
  exact ⟨ha, hb⟩

/-! ## C7: the metrics cache (`get_units_snr`) -/

lemma lookup_append_right_none {α β : Type} [DecidableEq α] [LawfulBEq α]
    (l : List (α × β)) (k : α) (v : β) (h : l.lookup k = none) :
    (l ++ [(k, v)]).lookup k = some v := by
  induction l with
  | nil => simp [List.lookup]
  | cons e rest ih =>
    obtain ⟨a, b⟩ := e
    rw [List.lookup] at h
    rw [List.cons_append, List.lookup]
    cases hbeq : k == a with
    | true =>
      rw [hbeq] at h
      exact absurd h (by simp)
    | false =>
      rw [hbeq] at h
      exact ih h

lemma get_units_snr_hit (c : String → List Int) (s : Study)
    (r0 : Option String) (rn : String) (rows : List (Nat × Int))
    (h0 : s.is_scanned = true)
    (hres : resolve_arg s.rec_names r0 = .ok rn)
    (hfile : s.folder.metricsFiles.lookup ("SNR " ++ rn ++ ".txt") = some rows) :
    get_units_snr c s r0 = .ok (s, rows) := by
  unfold get_units_snr
  rw [check_rec_name_scanned s r0 h0, hres]
  show (match s.folder.metricsFiles.lookup ("SNR " ++ rn ++ ".txt") with
    | some rows => Except.ok (s, rows)
    | none => _) = _
  rw [hfile]

lemma get_recording_ok (s : Study) (rn : String)
    (h0 : s.is_scanned = true)
    (hres : resolve_arg s.rec_names (some rn) = .ok rn)
    (hrec : rn ∈ s.folder.recNames) :
    get_recording s (some rn) = .ok (s, ()) := by
  unfold get_recording
  rw [check_rec_name_scanned s (some rn) h0, hres]
  show (match get_one_recording s.folder rn with
    | some r => Except.ok (s, r)
    | none => Except.error (StudyError.ioError ("missing recording " ++ rn))) = _
  unfold get_one_recording
  rw [if_pos hrec]

lemma compute_snr_ok (c : String → List Int) (s : Study) (rn : String)
    (u : List Nat) (h0 : s.is_scanned = true)
    (hres : resolve_arg s.rec_names (some rn) = .ok rn)
    (hrec : rn ∈ s.folder.recNames)
    (hgt : s.folder.gtUnits.lookup rn = some u) :
    _compute_snr c s rn = .ok (s, u.zip (c rn)) := by
  have hfetch : gtFetch s rn = some u := by
    unfold gtFetch
    rw [hres]
    exact hgt
  unfold _compute_snr
  rw [get_recording_ok s rn h0 hres hrec]
  show (match get_ground_truth s (some rn) with
    | Except.error e => Except.error e
    | Except.ok (s, gtU) => Except.ok (s, gtU.zip (c rn))) = _
  rw [get_ground_truth_ok s rn u h0 hfetch]

/-- C7: `get_units_snr` is a write-through cache with a faithful round
trip.  On a case with no persisted SNR file, the first call computes the
per-unit table (ground-truth unit ids paired with the external SNR
values), persists it under `metrics/SNR <case>.txt`, and returns it.  A
subsequent call on the resulting study returns exactly the persisted
values and the same unchanged study, for an arbitrary — possibly
different — SNR computation `c₂`: the computation is not invoked again. -/
theorem get_units_snr_cache (c₁ c₂ : String → List Int) (s : Study)
    (r0 : Option String) (rn : String) (u : List Nat)
    (h0 : s.is_scanned = true)
    (hres : resolve_arg s.rec_names r0 = .ok rn)
    (hmiss : s.folder.metricsFiles.lookup ("SNR " ++ rn ++ ".txt") = none)
    (hrec : rn ∈ s.folder.recNames)
    (hgt : s.folder.gtUnits.lookup rn = some u) :
    get_units_snr c₁ s r0 =
      .ok ({ s with folder := { s.folder with
               metricsFiles := s.folder.metricsFiles ++
                 [("SNR " ++ rn ++ ".txt", u.zip (c₁ rn))] } },
           u.zip (c₁ rn)) ∧
    get_units_snr c₂
        { s with folder := { s.folder with
            metricsFiles := s.folder.metricsFiles ++
              [("SNR " ++ rn ++ ".txt", u.zip (c₁ rn))] } } r0 =
      .ok ({ s with folder := { s.folder with
               metricsFiles := s.folder.metricsFiles ++
                 [("SNR " ++ rn ++ ".txt", u.zip (c₁ rn))] } },
           u.zip (c₁ rn)) := by
  have hres1 : resolve_arg s.rec_names (some rn) = .ok rn :=
    resolve_arg_idem s.rec_names r0 rn hres
  constructor
  · unfold get_units_snr
    rw [check_rec_name_scanned s r0 h0, hres]
    show (match s.folder.metricsFiles.lookup ("SNR " ++ rn ++ ".txt") with
      | some rows => Except.ok (s, rows)
      | none =>
        match _compute_snr c₁ s rn with
        | Except.error e => Except.error e
        | Except.ok (s, snr) =>
          Except.ok ({ s with folder := { s.folder with
              metricsFiles := s.folder.metricsFiles ++
                [("SNR " ++ rn ++ ".txt", snr)] } }, snr)) = _
    rw [hmiss, compute_snr_ok c₁ s rn u h0 hres1 hrec hgt]
  · exact get_units_snr_hit c₂ _ r0 rn (u.zip (c₁ rn)) h0 hres
      (lookup_append_right_none s.folder.metricsFiles _ _ hmiss)

/-- Witness for C7: the demo study has no cached SNR file for rec0; the
first call with computation 10*u persists and returns it, and a second
call with a different computation 20*u still returns the cached values. -/
theorem get_units_snr_cache_witness :
    get_units_snr (fun _ => [10, 20, 30]) demoStudy none =
      .ok ({ demoStudy with folder := { demoStudy.folder with
               metricsFiles := [("SNR rec0.txt", [(1, 10), (2, 20), (3, 30)])] } },
           [(1, 10), (2, 20), (3, 30)]) ∧
    get_units_snr (fun _ => [99, 99, 99])
        { demoStudy with folder := { demoStudy.folder with
            metricsFiles := [("SNR rec0.txt", [(1, 10), (2, 20), (3, 30)])] } }
        none =
      .ok ({ demoStudy with folder := { demoStudy.folder with
               metricsFiles := [("SNR rec0.txt", [(1, 10), (2, 20), (3, 30)])] } },
           [(1, 10), (2, 20), (3, 30)]) := by
  have h := get_units_snr_cache (fun _ => [10, 20, 30]) (fun _ => [99, 99, 99])
    demoStudy none "rec0" [1, 2, 3] rfl rfl rfl (by decide) rfl
  exact h
